import Mathlib

/-!
Verification of the server bootstrap and lifecycle orchestration subsystem of
src/octoprint/server/__init__.py against its natural-language specification.

The Python code is shallowly embedded: pure fragments become Lean functions,
the stateful shutdown and bootstrap sequences become explicit state passing
together with traces of the externally visible actions they perform, and a
Python callable that may raise is embedded as a function into Except.
-/

/- ········································································
   Definitions: LifecycleManager
   (src/octoprint/server/__init__.py, class LifecycleManager)
   ········································································ -/

/-- A lifecycle callback as registered via LifecycleManager.add_callback.
It is invoked with the plugin name and an opaque plugin descriptor (abstracted
to a Nat); invoking it either returns normally (Except.ok) or raises an
exception carrying a message (Except.error), exactly the two behaviours a
Python callable can show here. The id identifies the callback in traces. -/
structure Callback where
  id : Nat
  run : String → Nat → Except String Unit

/-- Observable outcome of one dispatch of LifecycleManager.on_plugin_event:
the ids of the callbacks that were invoked, in invocation order, and the
exception that propagated out of the dispatch to its caller, if any. -/
structure DispatchResult where
  executed : List Nat
  propagated : Option String
deriving Repr, DecidableEq

/-- Embedding of LifecycleManager.on_plugin_event restricted to one event:
the Python body is a bare loop
for lifecycle_callback in self._plugin_lifecycle_callbacks[event]:
    lifecycle_callback(name, plugin)
with no exception handling, so a raising callback aborts the loop and the
exception propagates to the caller. -/
def on_plugin_event (cbs : List Callback) (name : String) (plugin : Nat) :
    DispatchResult :=
  match cbs with
  | [] => { executed := [], propagated := none }
  | c :: rest =>
    match c.run name plugin with
    | Except.error e => { executed := [c.id], propagated := some e }
    | Except.ok _ =>
      let r := on_plugin_event rest name plugin
      { executed := c.id :: r.executed, propagated := r.propagated }

/-- Embedding of LifecycleManager.add_callback: for every event in the given
list the callback is appended at the end of that event's callback list, so
lists are kept in registration order. -/
def add_callback (m : String → List Callback) (events : List String)
    (cb : Callback) : String → List Callback :=
  events.foldl (fun acc ev => fun e => if e = ev then acc e ++ [cb] else acc e) m

/-- A plugin-subsystem event handler (the on_plugin_<event> attribute of the
upstream plugin manager): called with plugin name and descriptor, it performs
a sequence of observable actions, abstracted to their ids. none models an
attribute that is not callable (the code guards with callable(...)). -/
def EventHandler := Option (String → Nat → List Nat)

/-- The upstream plugin manager as LifecycleManager.__init__ sees it: only its
on_plugin_<event> attributes matter, read via getattr("on_plugin_" + event). -/
structure PluginMgr where
  handlerFor : String → EventHandler

/-- Embedding of the inner wrap_plugin_event of LifecycleManager.__init__:
builds a combined handler that first runs the pre-existing upstream handler
(if callable) and then the newly supplied handler (if callable). -/
def wrap_plugin_event (pm : PluginMgr) (lifecycle_event : String)
    (new_handler : EventHandler) : String → Nat → List Nat :=
  let orig_handler := pm.handlerFor lifecycle_event
  fun name plugin =>
    (match orig_handler with
     | some h => h name plugin
     | none => []) ++
    (match new_handler with
     | some h => h name plugin
     | none => [])

/-- Embedding of the inner on_plugin_event_factory of LifecycleManager.__init__:
the produced handler forwards to self.on_plugin_event for the captured event;
its observable actions are the ids of the callbacks that dispatch executes. -/
def on_plugin_event_factory (callbacks : String → List Callback)
    (lifecycle_event : String) : String → Nat → List Nat :=
  fun name plugin => (on_plugin_event (callbacks lifecycle_event) name plugin).executed

/-- Embedding of the constructor loop of LifecycleManager.__init__:
for event in ("loaded", "unloaded", "enabled", "disabled"):
    wrap_plugin_event(event, on_plugin_event_factory(event))
The wrapped handler returned by wrap_plugin_event is discarded (the loop body
never assigns it back onto the plugin manager), which the embedding makes
explicit with a discarded let binding; the plugin manager travels through the
fold unchanged. -/
def lifecycle_manager_init (pm : PluginMgr) (callbacks : String → List Callback) :
    PluginMgr :=
  (["loaded", "unloaded", "enabled", "disabled"]).foldl
    (fun acc event =>
      let _ := wrap_plugin_event acc event (some (on_plugin_event_factory callbacks event))
      acc)
    pm

/-- Firing one plugin-subsystem event through the plugin manager: the plugin
subsystem invokes the current on_plugin_<event> attribute, if callable. -/
def fire_plugin_event (pm : PluginMgr) (event name : String) (plugin : Nat) :
    List Nat :=
  match pm.handlerFor event with
  | some h => h name plugin
  | none => []

/-- Callback A of the spec scenario: raises on every invocation. -/
def cbRaising : Callback :=
  { id := 0, run := fun _ _ => Except.error "boom" }

/-- Callback B of the spec scenario: always returns normally. -/
def cbBenign : Callback :=
  { id := 1, run := fun _ _ => Except.ok () }

/-- Concrete upstream plugin manager: its pre-existing on_plugin_enabled
handler performs the single action 100; other events have no handler. -/
def pmDemo : PluginMgr :=
  { handlerFor := fun e => if e = "enabled" then some (fun _ _ => [100]) else none }

/-- Concrete downstream registration: callback 7, registered for "enabled"
via add_callback on an initially empty callback table. -/
def cbsDemo : String → List Callback :=
  add_callback (fun _ => []) ["enabled"] { id := 7, run := fun _ _ => Except.ok () }

/- ········································································
   Definitions: route table assembly
   (Server._get_server_handlers and Server._get_max_body_sizes)
   ········································································ -/

/-- One entry of the assembled Tornado route table: the (pattern, handler,
kwargs) 3-tuples the code appends to server_routes; handler classes and their
keyword arguments are abstracted to identifiers. -/
structure Route where
  pattern : String
  handler : Nat
  kwargs : Nat
deriving Repr, DecidableEq

/-- One element of the list a octoprint.server.http.routes hook returned,
together with the isinstance facts the assembly code checks about it: whether
the element is a tuple of length 3, whether its first component is a str and
whether its third component is a dict. -/
structure RouteHookEntry where
  isTuple3 : Bool
  routeIsStr : Bool
  kwargsIsDict : Bool
  route : String
  handler : Nat
  kwargs : Nat
deriving Repr, DecidableEq

/-- A registered octoprint.server.http.routes hook: the owning plugin's name
and the outcome of calling it with a copy of the route list — Except.error
models the hook raising (caught and logged by the assembly code), ok none
models a result that is not a list or tuple, ok (some entries) a list result. -/
structure RouteHook where
  name : String
  result : Except Unit (Option (List RouteHookEntry))

/-- Embedding of Python str.startswith("/"): the string's first character is
a slash. Stated on the character list so that it reduces in the kernel. -/
def starts_with_slash (s : String) : Bool :=
  match s.data with
  | c :: _ => c = Char.ofNat 47
  | [] => false

/-- Embedding of Python route[1:]: drop the first character. -/
def drop_first (s : String) : String :=
  String.mk (s.data.drop 1)

/-- The route rewrite applied to every accepted hook entry:
route = r"/plugin/{name}/{route}".format(name=name,
    route=route if not route.startswith("/") else route[1:]). -/
def plugin_route_pattern (name route : String) : String :=
  "/plugin/" ++ name ++ "/" ++ (if starts_with_slash route then drop_first route else route)

/-- The per-entry validation and rewrite loop of Server._get_server_handlers:
entries that are not 3-tuples, whose first component is not a str or whose
third component is not a dict are skipped (continue); every surviving entry is
appended with its pattern rewritten into the plugin's namespace. -/
def accepted_routes (name : String) (entries : List RouteHookEntry) : List Route :=
  entries.filterMap (fun entry =>
    if ¬ entry.isTuple3 then none
    else if ¬ entry.routeIsStr then none
    else if ¬ entry.kwargsIsDict then none
    else some { pattern := plugin_route_pattern name entry.route,
                handler := entry.handler, kwargs := entry.kwargs })

/-- Routes contributed by one hook: a raising hook (logged via
logger.exception) and a non-list result contribute nothing; otherwise the
accepted, rewritten entries are contributed. -/
def routes_from_hook (h : RouteHook) : List Route :=
  match h.result with
  | Except.error _ => []
  | Except.ok none => []
  | Except.ok (some entries) => accepted_routes h.name entries

/-- Embedding of the route assembly of Server._get_server_handlers: the
built-in server_routes list, extended in hook order by each hook's accepted
routes via append, and finally the catch-all r".*" upload fallback route
appended last. No deduplication of any kind is performed. -/
def get_server_handlers (builtin : List Route) (hooks : List RouteHook)
    (catchAll : Route) : List Route :=
  (hooks.foldl (fun acc h => acc ++ routes_from_hook h) builtin) ++ [catchAll]

/-- The literal built-in route patterns of Server._get_server_handlers
(excluding the sockjs router urls, which come from a collaborator, and the
final catch-all r".*"). -/
def builtin_route_patterns : List String :=
  ["/downloads/timelapse/(.*)",
   "/downloads/timelapses",
   "/downloads/files/local/(.*)",
   "/downloads/files/local",
   "/downloads/logs/([^/]*)",
   "/downloads/logs",
   "/downloads/systeminfo.zip",
   "/downloads/camera/current",
   "/static/webassets/(.*)",
   "/online.txt",
   "/online.gif",
   "/api/logs",
   "/api/logs/(.*)"]

/-- One element of the list a octoprint.server.http.bodysize hook returned,
with the facts the assembly code checks: whether it is a 3-tuple, whether its
first component is one of UploadStorageFallbackHandler.BODY_METHODS and
whether its third component is an int. -/
structure BodySizeHookEntry where
  isTuple3 : Bool
  methodIsBodyMethod : Bool
  sizeIsInt : Bool
  method : String
  route : String
  size : Int
deriving Repr, DecidableEq

/-- A registered octoprint.server.http.bodysize hook, analogous to RouteHook. -/
structure BodySizeHook where
  name : String
  result : Except Unit (Option (List BodySizeHookEntry))

/-- One (method, pattern, byte-limit) override of the max_body_sizes list. -/
structure BodySizeOverride where
  method : String
  pattern : String
  size : Int
deriving Repr, DecidableEq

/-- The per-entry validation and rewrite loop of Server._get_max_body_sizes:
entries that are not 3-tuples, whose method is not a body method or whose size
is not an int are skipped; every surviving entry is appended with its route
rewritten into the plugin's namespace by the same rewrite as for routes. -/
def accepted_body_sizes (name : String) (entries : List BodySizeHookEntry) :
    List BodySizeOverride :=
  entries.filterMap (fun entry =>
    if ¬ entry.isTuple3 then none
    else if ¬ entry.methodIsBodyMethod then none
    else if ¬ entry.sizeIsInt then none
    else some { method := entry.method,
                pattern := plugin_route_pattern name entry.route,
                size := entry.size })

/-- Body-size overrides contributed by one hook; raising hooks and non-list
results contribute nothing, as for routes. -/
def body_sizes_from_hook (h : BodySizeHook) : List BodySizeOverride :=
  match h.result with
  | Except.error _ => []
  | Except.ok none => []
  | Except.ok (some entries) => accepted_body_sizes h.name entries

/-- Embedding of Server._get_max_body_sizes: the built-in overrides extended
in hook order by each hook's accepted overrides. -/
def get_max_body_sizes (builtin : List BodySizeOverride)
    (hooks : List BodySizeHook) : List BodySizeOverride :=
  hooks.foldl (fun acc h => acc ++ body_sizes_from_hook h) builtin

/-- A valid hook entry whose duplicate registration exercises the duplicate
handling of the route assembly. -/
def dupEntry : RouteHookEntry :=
  { isTuple3 := true, routeIsStr := true, kwargsIsDict := true,
    route := "x", handler := 5, kwargs := 6 }

/-- A hook of plugin "foo" returning the same valid entry twice. -/
def dupHook : RouteHook :=
  { name := "foo", result := Except.ok (some [dupEntry, dupEntry]) }

/-- The route that dupEntry is rewritten to. -/
def dupRoute : Route :=
  { pattern := "/plugin/foo/x", handler := 5, kwargs := 6 }

/-- A one-entry built-in route list for the duplicate counterexample. -/
def demoBuiltin : List Route :=
  [{ pattern := "/online.txt", handler := 1, kwargs := 0 }]

/-- The catch-all upload fallback route, abstracted. -/
def demoCatchAll : Route :=
  { pattern := ".*", handler := 99, kwargs := 0 }

/-- A valid body-size hook entry for the witness. -/
def demoBodyEntry : BodySizeHookEntry :=
  { isTuple3 := true, methodIsBodyMethod := true, sizeIsInt := true,
    method := "POST", route := "/up", size := 1024 }

/-- A body-size hook of plugin "bar" contributing one valid override. -/
def demoBodyHook : BodySizeHook :=
  { name := "bar", result := Except.ok (some [demoBodyEntry]) }

/-- The override that demoBodyHook's entry is rewritten to. -/
def demoBodyOverride : BodySizeOverride :=
  { method := "POST", pattern := "/plugin/bar/up", size := 1024 }

/- ········································································
   Definitions: shutdown handling (Server._register_shutdown_handlers)
   ········································································ -/

/-- Externally visible actions of the on_shutdown handler that
Server._register_shutdown_handlers registers with atexit. -/
inductive ShutdownAction where
  | logInfo (msg : String)
  | watcherStop
  | watcherJoin
  | fireShutdownEvent
  | callShutdownPlugins
  | eventManagerJoin (timeoutSeconds : Nat)
  | logWarning (msg : String)
  | daemonTerminated
deriving Repr, DecidableEq

/-- The parts of the Server state that on_shutdown reads: whether
self._watched_observer is truthy and whether self._octoprint_daemon is not
None. The handler assigns neither attribute and keeps no completion flag. -/
structure ShutdownState where
  watchedObserver : Bool
  octoprintDaemon : Bool
deriving Repr, DecidableEq

/-- Modelled from the spec: the outcome of eventManager.join(timeout=...) of
octoprint.events, whose implementation is not under src — it waits for the
shutdown-event consumers to finish for at most the given timeout and reports
whether they were still busy when it returned. The environment fixes that
outcome for the run. -/
structure ShutdownEnv where
  consumersStillBusy : Bool
deriving Repr, DecidableEq

/-- The fixed wait bound of on_shutdown: event_timeout = 15.0 seconds. -/
def event_timeout : Nat := 15

/-- The warning logged when the bounded wait times out, as the code formats it
with event_timeout = 15.0. -/
def busy_warning : String :=
  "Event loop was still busy processing after 15.0s, shutting down anyhow"

/-- Embedding of on_shutdown: log, stop and join the watched observer when one
is set, fire the SHUTDOWN event, call the shutdown plugins, wait for the event
manager bounded by event_timeout and log a warning when it was still busy,
then notify the daemon when one is set, then log the final line. The server
state is returned unchanged: the handler clears neither _watched_observer nor
any flag recording that it already ran. -/
def on_shutdown (env : ShutdownEnv) (st : ShutdownState) :
    ShutdownState × List ShutdownAction :=
  (st,
    [ShutdownAction.logInfo "Shutting down..."]
    ++ (if st.watchedObserver then
          [ShutdownAction.watcherStop, ShutdownAction.watcherJoin]
        else [])
    ++ [ShutdownAction.fireShutdownEvent,
        ShutdownAction.callShutdownPlugins,
        ShutdownAction.eventManagerJoin event_timeout]
    ++ (if env.consumersStillBusy then
          [ShutdownAction.logWarning busy_warning]
        else [])
    ++ (if st.octoprintDaemon then
          [ShutdownAction.logInfo "Cleaning up daemon pidfile",
           ShutdownAction.daemonTerminated]
        else [])
    ++ [ShutdownAction.logInfo "Goodbye!"])

/-- Two sequential invocations of the shutdown path, threading the state, with
the concatenated action trace. -/
def on_shutdown_twice (env : ShutdownEnv) (st : ShutdownState) :
    List ShutdownAction :=
  let r1 := on_shutdown env st
  let r2 := on_shutdown env r1.1
  r1.2 ++ r2.2

/- ········································································
   Definitions: intermediary server and port handover
   (Server._start_intermediary_server, Server._stop_intermediary_server and
    the handover portion of Server.run)
   ········································································ -/

/-- Externally visible actions of the bootstrap port-handover sequence. -/
inductive BootAction where
  | createIntermediarySocket
  | setCloseOnExec
  | intermediaryBind
  | intermediaryActivate
  | startServeThread
  | logIntermediaryStarted
  | getMaxBodySizes
  | logShuttingDownIntermediary
  | intermediaryShutdown
  | intermediaryClose
  | logIntermediaryShutDown
  | fullServerBind
  | fireStartupEvent
deriving Repr, DecidableEq

/-- Embedding of the socket-lifecycle statements of
Server._start_intermediary_server, in program order: create the server object
with bind_and_activate=False, mark its descriptor close-on-exec (the
set_close_exec call of octoprint.util.platform — modelled from the spec as
succeeding, since its implementation is not under src), then server_bind, then
server_activate, then start the serving thread, then log. -/
def start_intermediary_server_trace : List BootAction :=
  [BootAction.createIntermediarySocket,
   BootAction.setCloseOnExec,
   BootAction.intermediaryBind,
   BootAction.intermediaryActivate,
   BootAction.startServeThread,
   BootAction.logIntermediaryStarted]

/-- Embedding of Server._stop_intermediary_server: returns immediately when no
intermediary server exists; otherwise it synchronously shuts the serving loop
down and closes the listening socket before returning. -/
def stop_intermediary_server_trace (present : Bool) : List BootAction :=
  if present then
    [BootAction.logShuttingDownIntermediary,
     BootAction.intermediaryShutdown,
     BootAction.intermediaryClose,
     BootAction.logIntermediaryShutDown]
  else []

/-- Embedding of the handover portion of Server.run: the intermediary server
is started early in run, the max-body-size assembly runs while it is still
live, then _stop_intermediary_server returns, then _initialize_and_bind_server
binds the full server to the same host and port, then STARTUP fires. The stop
path sees the intermediary present because run started it earlier. -/
def bootstrap_trace : List BootAction :=
  start_intermediary_server_trace
  ++ [BootAction.getMaxBodySizes]
  ++ stop_intermediary_server_trace true
  ++ [BootAction.fullServerBind, BootAction.fireStartupEvent]

/-- Port ownership transition: the intermediary holds the port from
server_bind to server_close, the full server from its bind on. -/
def port_holder_step (s : Bool × Bool) (a : BootAction) : Bool × Bool :=
  match a with
  | BootAction.intermediaryBind => (true, s.2)
  | BootAction.intermediaryClose => (false, s.2)
  | BootAction.fullServerBind => (s.1, true)
  | _ => s

/-- Number of port owners at every instant of a trace: one count before any
action and one after each action. -/
def port_owner_counts (tr : List BootAction) : List Nat :=
  (tr.scanl port_holder_step (false, false)).map
    (fun s => (if s.1 then 1 else 0) + (if s.2 then 1 else 0))

/- ········································································
   Definitions: preemptive cache replay
   (Server._execute_preemptive_flask_caching)
   ········································································ -/

/-- One recorded cache entry with the dictionary keys the filtering and
ordering code reads: "_timestamp" (none when the key is absent), "base_url"
(none when absent; the empty string models a present but falsy value) and
"_count" (none when absent; the code reads it with default 0). -/
structure CacheEntry where
  timestamp : Option Int
  base_url : Option String
  hits : Option Nat
deriving Repr, DecidableEq

/-- Python pre.startswith check, embedded on character lists so that it
reduces in the kernel. -/
def str_startswith (pre s : String) : Bool :=
  pre.data.isPrefixOf s.data

/-- The retention cutoff of Server._execute_preemptive_flask_caching:
cutoff_timestamp = time.time() - preemptive_cache_timeout * 24 * 60 * 60. -/
def cutoff_timestamp (now untilDays : Int) : Int :=
  now - untilDays * 24 * 60 * 60

/-- Embedding of filter_current_entries: true exactly for entries that carry a
"_timestamp" strictly greater than the cutoff. -/
def filter_current_entries (cutoff : Int) (entry : CacheEntry) : Bool :=
  match entry.timestamp with
  | some t => decide (cutoff < t)
  | none => false

/-- Embedding of filter_http_entries: true exactly for entries that carry a
truthy "base_url" starting with http:// or https://. -/
def filter_http_entries (entry : CacheEntry) : Bool :=
  match entry.base_url with
  | some u => (! (u == "")) && (str_startswith "http://" u || str_startswith "https://" u)
  | none => false

/-- Embedding of filter_entries, the combined filter: all two filters hold. -/
def filter_entries (cutoff : Int) (entry : CacheEntry) : Bool :=
  filter_current_entries cutoff entry && filter_http_entries entry

/-- The per-route cleaning the code hands to preemptive_cache.clean_all_data:
lambda root, entries: list(filter(filter_entries, entries)). -/
def clean_entries (cutoff : Int) (entries : List CacheEntry) : List CacheEntry :=
  entries.filter (filter_entries cutoff)

/-- Python x.count("/"): the number of slash characters of the route. -/
def slash_count (s : String) : Nat :=
  s.data.count (Char.ofNat 47)

/-- The route ordering of execute_caching, the comparison under the Python
sort key (x.count("/"), x): increasing slash count, then lexicographic. -/
def route_key_le (a b : String) : Prop :=
  slash_count a < slash_count b ∨ (slash_count a = slash_count b ∧ a ≤ b)

instance route_key_le_dec : DecidableRel route_key_le := fun a b => by
  unfold route_key_le
  infer_instance

instance route_key_le_total : IsTotal String route_key_le := by
  constructor
  intro a b
  unfold route_key_le
  rcases Nat.lt_trichotomy (slash_count a) (slash_count b) with h | h | h
  · exact Or.inl (Or.inl h)
  · rcases le_total a b with hle | hle
    · exact Or.inl (Or.inr ⟨h, hle⟩)
    · exact Or.inr (Or.inr ⟨h.symm, hle⟩)
  · exact Or.inr (Or.inl h)

instance route_key_le_trans : IsTrans String route_key_le := by
  constructor
  intro a b c hab hbc
  unfold route_key_le at hab hbc ⊢
  rcases hab with h1 | ⟨e1, l1⟩ <;> rcases hbc with h2 | ⟨e2, l2⟩
  · exact Or.inl (by omega)
  · exact Or.inl (by omega)
  · exact Or.inl (by omega)
  · exact Or.inr ⟨by omega, le_trans l1 l2⟩

/-- The within-route ordering of execute_caching under
sorted(..., key=lambda x: x.get("_count", 0), reverse=True): the left entry
has at least the hit-count of the right one. -/
def hits_ge (a b : CacheEntry) : Prop :=
  b.hits.getD 0 ≤ a.hits.getD 0

instance hits_ge_dec : DecidableRel hits_ge := fun a b => by
  unfold hits_ge
  infer_instance

instance hits_ge_total : IsTotal CacheEntry hits_ge := by
  constructor
  intro a b
  unfold hits_ge
  exact (le_total (b.hits.getD 0) (a.hits.getD 0)).imp id id

instance hits_ge_trans : IsTrans CacheEntry hits_ge := by
  constructor
  intro a b c hab hbc
  unfold hits_ge at hab hbc ⊢
  exact le_trans hbc hab

/-- The route visit order of execute_caching:
sorted(cache_data.keys(), key=lambda x: (x.count("/"), x)). Python sorted is
a stable sort under a total preorder, which insertion sort realises. -/
def replay_route_order (cd : List (String × List CacheEntry)) : List String :=
  List.insertionSort route_key_le (cd.map Prod.fst)

/-- The within-route replay order of execute_caching:
sorted(cache_data[route], key=lambda x: x.get("_count", 0), reverse=True),
a stable descending sort by hit-count. -/
def entry_order (entries : List CacheEntry) : List CacheEntry :=
  List.insertionSort hits_ge entries

/-- Cache entry of the spec scenario with hit-count 5. -/
def entryFive : CacheEntry :=
  { timestamp := some 1000, base_url := some "http://localhost/", hits := some 5 }

/-- Cache entry of the spec scenario with hit-count 50. -/
def entryFifty : CacheEntry :=
  { timestamp := some 1000, base_url := some "http://localhost/", hits := some 50 }

/- ········································································
   Theorems: LifecycleManager (claims C1 and C2)
   ········································································ -/

/-- claim C1, counterexample. The spec scenario
LifecycleManager.notify("enabled", "pluginX", subj) with subscribers [A, B]
where A raises: dispatching runs only A, the raised error propagates to the
caller of the dispatch, and B never executes — contradicting the claim that
the error is caught and B still runs. -/
theorem lifecycle_callback_failure_propagates_cex :
    (on_plugin_event [cbRaising, cbBenign] "pluginX" 0).propagated = some "boom" ∧
    (on_plugin_event [cbRaising, cbBenign] "pluginX" 0).executed = [0] ∧
    ¬ ((on_plugin_event [cbRaising, cbBenign] "pluginX" 0).propagated = none ∧
        1 ∈ (on_plugin_event [cbRaising, cbBenign] "pluginX" 0).executed) := by
  refine ⟨rfl, rfl, ?_⟩
  intro h
  have hcontra : (some "boom" : Option String) = none := by
    rw [← h.1]; rfl
  exact Option.noConfusion hcontra

/-- claim C1, amended. Dispatch runs callbacks in registration order up to and
including the first raising callback: all callbacks before it execute in
order, the raising callback's exception propagates uncaught to the caller of
the dispatch, and no subsequent callback runs. -/
theorem lifecycle_dispatch_stops_at_first_raising_callback
    (pre post : List Callback) (c : Callback) (name : String) (plugin : Nat)
    (e : String)
    (hpre : ∀ cb ∈ pre, cb.run name plugin = Except.ok ())
    (hc : c.run name plugin = Except.error e) :
    on_plugin_event (pre ++ c :: post) name plugin =
      { executed := pre.map Callback.id ++ [c.id], propagated := some e } := by
  induction pre with
  | nil =>
    simp only [List.nil_append, List.map_nil]
    unfold on_plugin_event
    rw [hc]
  | cons hd tl ih =>
    have hhd : hd.run name plugin = Except.ok () := hpre hd (by simp)
    have htl : ∀ cb ∈ tl, cb.run name plugin = Except.ok () :=
      fun cb hcb => hpre cb (by simp [hcb])
    simp only [List.cons_append]
    unfold on_plugin_event
    rw [hhd, ih htl]
    simp

/-- claim C1, witness for the amended theorem at a concrete input. -/
theorem lifecycle_dispatch_stops_witness :
    on_plugin_event ([cbBenign] ++ cbRaising :: [cbBenign]) "pluginX" 0 =
      { executed := [cbBenign].map Callback.id ++ [cbRaising.id],
        propagated := some "boom" } :=
  lifecycle_dispatch_stops_at_first_raising_callback [cbBenign] [cbBenign]
    cbRaising "pluginX" 0 "boom"
    (by intro cb hcb; simp only [List.mem_singleton] at hcb; rw [hcb]; rfl)
    rfl

/-- claim C2, code bug. The constructor builds, for each of the four events,
the wrapped handler that would run the pre-existing upstream handler before
the newly registered downstream callbacks — but then discards it instead of
installing it on the plugin manager. Consequently the plugin manager is left
unchanged by construction (first conjunct, for every plugin manager and every
callback table), so when the plugin subsystem signals "enabled" only the
pre-existing handler runs and the added callback 7 never runs (second and
third conjuncts), even though the discarded wrapped handler would have run
the built-in action 100 followed by callback 7 (fourth conjunct). -/
theorem lifecycle_wrapper_discarded_plugin_manager_unchanged :
    (∀ (pm : PluginMgr) (cbs : String → List Callback),
        lifecycle_manager_init pm cbs = pm) ∧
    fire_plugin_event (lifecycle_manager_init pmDemo cbsDemo) "enabled" "x" 0 = [100] ∧
    ¬ 7 ∈ fire_plugin_event (lifecycle_manager_init pmDemo cbsDemo) "enabled" "x" 0 ∧
    wrap_plugin_event pmDemo "enabled"
        (some (on_plugin_event_factory cbsDemo "enabled")) "x" 0 = [100, 7] := by
  refine ⟨fun pm cbs => rfl, rfl, ?_, rfl⟩
  intro h
  simp [fire_plugin_event, lifecycle_manager_init, pmDemo] at h

/- ········································································
   Theorems: route table assembly (claims C3 and C10)
   ········································································ -/

/-- Helper: extending a list by folded appends equals appending the joined
contributions. -/
theorem foldl_append_eq_append_flatten {α β : Type} (f : β → List α) (l : List β)
    (b : List α) :
    l.foldl (fun acc h => acc ++ f h) b = b ++ (l.map f).flatten := by
  induction l generalizing b with
  | nil => simp
  | cons hd tl ih => simp [ih, List.append_assoc]

/-- claim C3, counterexample. A hook registering the identical route twice:
both copies survive into the assembled route table — the second registration
is neither rejected nor dropped, contradicting the claim that only the first
registration is honored and the second rejected. -/
theorem duplicate_route_kept_twice_cex :
    (get_server_handlers demoBuiltin [dupHook] demoCatchAll).countP
        (fun r => r.pattern == "/plugin/foo/x") = 2 ∧
    ¬ (get_server_handlers demoBuiltin [dupHook] demoCatchAll).countP
        (fun r => r.pattern == "/plugin/foo/x") = 1 ∧
    get_server_handlers demoBuiltin [dupHook] demoCatchAll =
      demoBuiltin ++ [dupRoute, dupRoute, demoCatchAll] := by
  refine ⟨by decide, by decide, by decide⟩

/-- claim C3, amended. The assembly performs no duplicate detection at all:
the assembled table is exactly the built-in routes, followed by every accepted
hook route in hook order, followed by the catch-all — so two registrations
with the same pattern are both kept (never rejected, logged, merged or
replaced), and assembly of the remaining routes always continues. The pattern
count of the assembled table is additive in its three parts. -/
theorem route_assembly_appends_all_accepted (builtin : List Route)
    (hooks : List RouteHook) (catchAll : Route) :
    get_server_handlers builtin hooks catchAll =
      builtin ++ (hooks.map routes_from_hook).flatten ++ [catchAll] ∧
    ∀ p : String,
      (get_server_handlers builtin hooks catchAll).countP
          (fun r => r.pattern == p) =
        builtin.countP (fun r => r.pattern == p)
        + ((hooks.map routes_from_hook).flatten).countP (fun r => r.pattern == p)
        + (if catchAll.pattern == p then 1 else 0) := by
  constructor
  · unfold get_server_handlers
    rw [foldl_append_eq_append_flatten]
  · intro p
    unfold get_server_handlers
    rw [foldl_append_eq_append_flatten]
    simp only [List.countP_append, List.countP_cons, List.countP_nil]
    by_cases hp : catchAll.pattern == p <;> simp [hp]

/-- Helper: the first eight characters of a plugin-namespaced pattern are the
characters of "/plugin/". -/
theorem plugin_pattern_take_eight (name rest : String) :
    ("/plugin/" ++ name ++ "/" ++ rest).data.take 8 = "/plugin/".data := by
  have h : ("/plugin/" ++ name ++ "/" ++ rest).data
      = "/plugin/".data ++ (name.data ++ "/".data ++ rest.data) := by
    simp [List.append_assoc]
  rw [h]
  have hlen : "/plugin/".data.length = 8 := by rfl
  rw [← hlen, List.take_left]

/-- Helper: a plugin-namespaced pattern never equals a built-in pattern. -/
theorem plugin_pattern_not_builtin (name rest : String) :
    ¬ ("/plugin/" ++ name ++ "/" ++ rest) ∈ builtin_route_patterns := by
  intro hmem
  have htake := plugin_pattern_take_eight name rest
  simp only [builtin_route_patterns, List.mem_cons, List.not_mem_nil,
    or_false] at hmem
  rcases hmem with h | h | h | h | h | h | h | h | h | h | h | h | h <;>
    (rw [h] at htake; exact absurd htake (by decide))

/-- claim C10. Every route accepted from a octoprint.server.http.routes hook
has its pattern rewritten into the contributing plugin's namespace — it is of
the form /plugin/{name}/{rest} and in particular equals no built-in route
pattern — and every override accepted from a octoprint.server.http.bodysize
hook likewise has its pattern rewritten into the plugin's namespace. -/
theorem plugin_hook_routes_namespaced :
    (∀ (h : RouteHook) (r : Route), r ∈ routes_from_hook h →
        (∃ rest : String, r.pattern = "/plugin/" ++ h.name ++ "/" ++ rest) ∧
        ¬ r.pattern ∈ builtin_route_patterns) ∧
    (∀ (h : BodySizeHook) (b : BodySizeOverride), b ∈ body_sizes_from_hook h →
        ∃ rest : String, b.pattern = "/plugin/" ++ h.name ++ "/" ++ rest) := by
  constructor
  · intro h r hr
    have hpat : ∃ rest : String, r.pattern = "/plugin/" ++ h.name ++ "/" ++ rest := by
      unfold routes_from_hook at hr
      rcases hres : h.result with e | o
      · rw [hres] at hr; simp at hr
      · rw [hres] at hr
        rcases o with _ | entries
        · simp at hr
        · simp only [accepted_routes, List.mem_filterMap] at hr
          obtain ⟨entry, _, hacc⟩ := hr
          by_cases h1 : entry.isTuple3 <;> by_cases h2 : entry.routeIsStr <;>
            by_cases h3 : entry.kwargsIsDict <;> simp [h1, h2, h3] at hacc
          subst hacc
          exact ⟨_, rfl⟩
    obtain ⟨rest, hrest⟩ := hpat
    exact ⟨⟨rest, hrest⟩, by rw [hrest]; exact plugin_pattern_not_builtin h.name rest⟩
  · intro h b hb
    unfold body_sizes_from_hook at hb
    rcases hres : h.result with e | o
    · rw [hres] at hb; simp at hb
    · rw [hres] at hb
      rcases o with _ | entries
      · simp at hb
      · simp only [accepted_body_sizes, List.mem_filterMap] at hb
        obtain ⟨entry, _, hacc⟩ := hb
        by_cases h1 : entry.isTuple3 <;> by_cases h2 : entry.methodIsBodyMethod <;>
          by_cases h3 : entry.sizeIsInt <;> simp [h1, h2, h3] at hacc
        subst hacc
        exact ⟨_, rfl⟩

/-- claim C10, witness at concrete inputs: the duplicate hook's rewritten
route and the demo body-size hook's rewritten override. -/
theorem plugin_hook_routes_namespaced_witness :
    ((∃ rest : String, dupRoute.pattern = "/plugin/" ++ dupHook.name ++ "/" ++ rest) ∧
      ¬ dupRoute.pattern ∈ builtin_route_patterns) ∧
    (∃ rest : String,
        demoBodyOverride.pattern = "/plugin/" ++ demoBodyHook.name ++ "/" ++ rest) :=
  ⟨plugin_hook_routes_namespaced.1 dupHook dupRoute (by decide),
   plugin_hook_routes_namespaced.2 demoBodyHook demoBodyOverride (by decide)⟩

/- ········································································
   Theorems: shutdown handling (claims C4 and C7)
   ········································································ -/

/-- claim C4, counterexample. With a watched observer present, invoking the
shutdown path twice in sequence stops and joins the already-joined watcher a
second time and fires the shutdown event twice, not exactly once: nothing in
the handler records that a previous invocation already ran. -/
theorem double_shutdown_double_fire_cex :
    (on_shutdown_twice { consumersStillBusy := false }
        { watchedObserver := true, octoprintDaemon := false }).count
        ShutdownAction.fireShutdownEvent = 2 ∧
    (on_shutdown_twice { consumersStillBusy := false }
        { watchedObserver := true, octoprintDaemon := false }).count
        ShutdownAction.watcherJoin = 2 ∧
    ¬ (on_shutdown_twice { consumersStillBusy := false }
        { watchedObserver := true, octoprintDaemon := false }).count
        ShutdownAction.fireShutdownEvent = 1 := by decide

/-- claim C4, amended. The shutdown handler is not idempotent: it leaves the
server state unchanged (no completion flag is set and the observer reference
is kept), so a second sequential invocation repeats the entire action trace —
the shutdown event fires twice, and with a watcher present the already-joined
watcher is stopped and joined a second time. -/
theorem on_shutdown_state_unchanged_repeat_trace (env : ShutdownEnv)
    (st : ShutdownState) :
    (on_shutdown env st).1 = st ∧
    on_shutdown_twice env st = (on_shutdown env st).2 ++ (on_shutdown env st).2 ∧
    (on_shutdown_twice env st).count ShutdownAction.fireShutdownEvent = 2 ∧
    (on_shutdown_twice env st).count ShutdownAction.watcherJoin =
      (if st.watchedObserver then 2 else 0) := by
  obtain ⟨busy⟩ := env
  obtain ⟨w, d⟩ := st
  cases busy <;> cases w <;> cases d <;> decide

/-- claim C7. The shutdown handler waits for shutdown-event consumers through
a single eventManager.join call bounded by the fixed 15 second timeout; the
busy warning is logged exactly when consumers were still busy at timeout;
and teardown proceeds past the wait regardless: the daemon notification
happens (exactly when a daemon exists) strictly after the bounded wait, and
the final log line always follows, so the handler never waits indefinitely. -/
theorem shutdown_wait_bounded_fifteen_seconds (env : ShutdownEnv)
    (st : ShutdownState) :
    ShutdownAction.eventManagerJoin 15 ∈ (on_shutdown env st).2 ∧
    event_timeout = 15 ∧
    (ShutdownAction.logWarning busy_warning ∈ (on_shutdown env st).2 ↔
      env.consumersStillBusy = true) ∧
    (ShutdownAction.daemonTerminated ∈ (on_shutdown env st).2 ↔
      st.octoprintDaemon = true) ∧
    (on_shutdown env st).2.indexOf (ShutdownAction.eventManagerJoin 15) <
      (on_shutdown env st).2.indexOf ShutdownAction.daemonTerminated ∧
    (on_shutdown env st).2.getLast? = some (ShutdownAction.logInfo "Goodbye!") := by
  obtain ⟨busy⟩ := env
  obtain ⟨w, d⟩ := st
  cases busy <;> cases w <;> cases d <;> decide

/- ········································································
   Theorems: intermediary server and port handover (claims C5 and C6)
   ········································································ -/

/-- claim C6. In the bootstrap sequence the intermediary server's listening
socket descriptor is marked close-on-exec strictly before the socket is bound
(and hence strictly before any handover): subprocesses spawned before handoff
cannot inherit the bound descriptor and keep the port held open after the
placeholder stops. -/
theorem close_exec_set_before_intermediary_bind :
    BootAction.setCloseOnExec ∈ start_intermediary_server_trace ∧
    start_intermediary_server_trace.indexOf BootAction.setCloseOnExec <
      start_intermediary_server_trace.indexOf BootAction.intermediaryBind ∧
    bootstrap_trace.indexOf BootAction.setCloseOnExec <
      bootstrap_trace.indexOf BootAction.intermediaryBind := by decide

/-- claim C5, counterexample. At the instant after the intermediary socket has
been closed (and its shutdown logged) and immediately before the full bind —
the very next action of the bootstrap handover is the full server bind — zero
owners hold the port, so the claim that at no instant zero owners hold the
port is false. -/
theorem handover_zero_owner_instant_cex :
    (port_owner_counts bootstrap_trace).get? 11 = some 0 ∧
    bootstrap_trace.get? 11 = some BootAction.fullServerBind := by decide

/-- claim C5, amended. The handover is strictly sequential: stop of the
intermediary (shutdown of its serving loop and synchronous close of its
listening socket) completes strictly before the full server bind begins, and
at no instant do two owners hold the port — every instant of the bootstrap
trace has at most one owner; between the close and the bind, however, an
instant with zero owners necessarily occurs (previous counterexample). -/
theorem handover_sequential_at_most_one_owner :
    BootAction.intermediaryClose ∈ bootstrap_trace ∧
    BootAction.fullServerBind ∈ bootstrap_trace ∧
    bootstrap_trace.indexOf BootAction.intermediaryShutdown <
      bootstrap_trace.indexOf BootAction.intermediaryClose ∧
    bootstrap_trace.indexOf BootAction.intermediaryClose <
      bootstrap_trace.indexOf BootAction.fullServerBind ∧
    (port_owner_counts bootstrap_trace).all (fun n => n ≤ 1) = true := by decide

/- ········································································
   Theorems: preemptive cache replay (claims C8 and C9)
   ········································································ -/

/-- Helper: characterisation of the combined pre-replay filter. -/
theorem filter_entries_iff (cutoff : Int) (e : CacheEntry) :
    filter_entries cutoff e = true ↔
      ((∃ t : Int, e.timestamp = some t ∧ cutoff < t) ∧
       (∃ u : String, e.base_url = some u ∧ ¬ u = "" ∧
         (str_startswith "http://" u = true ∨ str_startswith "https://" u = true))) := by
  unfold filter_entries filter_current_entries filter_http_entries
  rcases e with ⟨ts, bu, hits⟩
  rcases ts with _ | t <;> rcases bu with _ | u <;>
    simp [Bool.and_eq_true, Bool.or_eq_true, decide_eq_true_eq]

/-- claim C8. An entry survives the pre-replay filter exactly when it both
carries a "_timestamp" strictly newer than now minus the retention window
(untilDays days) and carries a truthy base_url beginning with http:// or
https://; entries at or before the cutoff, and entries with non-HTTP(S) base
URLs regardless of age, are excluded before any replay happens. -/
theorem cache_filter_retention_and_http_iff (now untilDays : Int)
    (entries : List CacheEntry) (e : CacheEntry) :
    e ∈ clean_entries (cutoff_timestamp now untilDays) entries ↔
      (e ∈ entries ∧
        (∃ t : Int, e.timestamp = some t ∧ now - untilDays * 24 * 60 * 60 < t) ∧
        (∃ u : String, e.base_url = some u ∧ ¬ u = "" ∧
          (str_startswith "http://" u = true ∨ str_startswith "https://" u = true))) := by
  unfold clean_entries
  rw [List.mem_filter, filter_entries_iff]
  unfold cutoff_timestamp
  exact Iff.rfl

/-- claim C9. Replay visits routes sorted by the key (slash count, route):
increasing path-segment depth first and lexicographic within equal depth —
and the visited routes are exactly the cache's routes; within each route,
entries are replayed in non-increasing hit-count order and are exactly that
route's entries. In the concrete spec scenario with routes /a (hit-count 5)
and /a/b (hit-count 50), /a is replayed before /a/b even though its hit-count
is lower, and within one route the higher hit-count entry comes first. -/
theorem replay_order_depth_lex_and_hits_desc :
    (∀ cd : List (String × List CacheEntry),
        (replay_route_order cd).Sorted route_key_le ∧
        (replay_route_order cd).Perm (cd.map Prod.fst)) ∧
    (∀ entries : List CacheEntry,
        (entry_order entries).Sorted hits_ge ∧
        (entry_order entries).Perm entries) ∧
    replay_route_order [("/a/b", [entryFifty]), ("/a", [entryFive])] =
      ["/a", "/a/b"] ∧
    entry_order [entryFive, entryFifty] = [entryFifty, entryFive] := by
  refine ⟨fun cd => ⟨?_, ?_⟩, fun entries => ⟨?_, ?_⟩, ?_, ?_⟩
  · exact List.sorted_insertionSort route_key_le (cd.map Prod.fst)
  · exact List.perm_insertionSort route_key_le (cd.map Prod.fst)
  · exact List.sorted_insertionSort hits_ge entries
  · exact List.perm_insertionSort hits_ge entries
  · decide
  · decide
